import Mathlib

/-!
# Verification of the solar-detector app's computational core

Shallow embedding of `src/app/main.py` (the only source file): the PVGIS
irradiance fetch `get_avg_irradiance`, the sidebar fallback logic, the
detection-table area computation, and the energy estimation.  Python floats
are modelled as rationals (the spec speaks of reals and exact values such
as 91.575); network effects are modelled by passing the outcome of the HTTP
request as an explicit argument.
-/

namespace SolarApp

/-- A detection row of the detector's table: columns `name`, `confidence`,
`xmin`, `ymin`, `xmax`, `ymax` (main.py lines 109-117). -/
structure Detection where
  name : String
  confidence : ℚ
  xmin : ℚ
  ymin : ℚ
  xmax : ℚ
  ymax : ℚ
deriving Repr, DecidableEq

/-- `detection_df["area_px"] = (xmax - xmin) * (ymax - ymin)` (line 110). -/
def area_px (d : Detection) : ℚ :=
  (d.xmax - d.xmin) * (d.ymax - d.ymin)

/-- `detection_df["area_m2"] = area_px * (scale_m_per_px ** 2)` (line 111). -/
def area_m2 (scale : ℚ) (d : Detection) : ℚ :=
  area_px d * scale ^ 2

/-- `total_area_px = detection_df["area_px"].sum()` (line 112); the pandas
sum of a column, i.e. the sum of `area_px` over the rows. -/
def total_area_px (df : List Detection) : ℚ :=
  (df.map area_px).sum

/-- `total_area_m2 = detection_df["area_m2"].sum()` (line 113). -/
def total_area_m2 (scale : ℚ) (df : List Detection) : ℚ :=
  (df.map (area_m2 scale)).sum

/-- Modelled from the spec: `estimate_energy` lives in `src/utils/energy.py`,
which is not part of the provided sources (main.py only imports and calls it).
The spec gives its contract exactly:
`daily_kwh = total_area_m2 * irradiance_kwh_per_m2_day * panel_efficiency * (1 - system_loss)`
and `yearly_kwh = daily_kwh * 365`. -/
def estimate_energy (total_area_m2 irradiance_kwh_per_m2_day panel_efficiency system_loss : ℚ) :
    ℚ × ℚ :=
  let daily_kwh :=
    total_area_m2 * irradiance_kwh_per_m2_day * panel_efficiency * (1 - system_loss)
  (daily_kwh, daily_kwh * 365)

/-! ## The PVGIS irradiance fetch (main.py lines 65-74) -/

/-- The request URL built on line 66 of main.py. -/
def pvgis_url (lat lon : ℚ) : String :=
  "https://re.jrc.ec.europa.eu/api/v5_2/PVcalc?lat=" ++ toString lat ++
    "&lon=" ++ toString lon ++ "&outputformat=json&peakpower=1&loss=14"

/-- Outcome of the `requests.get` call and subsequent body handling, passed
in explicitly (the network is external):
* `response status parsed`: the request completed with the given HTTP status;
  `parsed` is `.ok v` when `res.json()['outputs']['totals']['fixed']['E_y']`
  would evaluate to `v` (well-formed body), and `.error msg` when the body
  parse or key lookup would raise an exception with message `msg`;
* `netError msg`: `requests.get` itself raised (timeout, connectivity, ...)
  with message `msg`. -/
inductive FetchOutcome where
  | response (status : Nat) (parsed : Except String ℚ)
  | netError (msg : String)
deriving Repr

/-- `get_avg_irradiance` (main.py lines 65-74).  The `try` block issues the
request; on status 200 it returns `(E_y / 365, url, None)`; on any other
status it returns `(None, url, "PVGIS error: status <code>")`; the `except`
clause catches every exception and returns `(None, url, str(e))`. -/
def get_avg_irradiance (lat lon : ℚ) (net : FetchOutcome) :
    Option ℚ × String × Option String :=
  let url := pvgis_url lat lon
  match net with
  | .response status parsed =>
      if status = 200 then
        match parsed with
        | .ok e_y => (some (e_y / 365), url, none)
        | .error msg => (none, url, some msg)
      else
        (none, url, some ("PVGIS error: status " ++ toString status))
  | .netError msg => (none, url, some msg)

/-! ## The sidebar fallback logic (main.py lines 76-87) -/

/-- Python truthiness of `irradiance_kwh_per_m2_day` on line 78: `None` is
falsy, and a float is falsy exactly when it is `0.0`. -/
def pyTruthy : Option ℚ → Bool
  | none => false
  | some v => decide (v ≠ 0)

/-- The manual-irradiance default placeholder of line 82: `value=5.5`. -/
def manual_irradiance_default : ℚ := 11 / 2

/-- Result of the sidebar branch of lines 78-87: the irradiance value that
the rest of the session uses, whether the manual number input was requested,
and the debug info (URL and error message) surfaced in the expander when it
was. -/
structure SidebarIrradiance where
  value : ℚ
  manualRequested : Bool
  debugShown : Option (String × Option String)
deriving Repr, DecidableEq

/-- Lines 78-87 of main.py: `if irradiance_kwh_per_m2_day:` keeps the fetched
value; otherwise the manual number input (default 5.5) is requested and the
URL and error message are surfaced. -/
def sidebar_irradiance (fetched : Option ℚ) (url : String) (err : Option String)
    (manualInput : ℚ) : SidebarIrradiance :=
  if pyTruthy fetched then
    ⟨fetched.getD 0, false, none⟩
  else
    ⟨manualInput, true, some (url, err)⟩

/-! ## The detection/estimation branch (main.py lines 109-129) -/

/-- The warning shown on line 128 when the table is absent or empty. -/
def noDetectionsMsg : String := "🚫 No solar panels detected. Try a different image."

/-- What the session renders after `detect_panels` returns: either the results
block of lines 115-126 (totals and energy figures) or the warning of line 128. -/
inductive RenderOutput where
  | results (totalPx totalM2 dailyKwh yearlyKwh : ℚ)
  | warning (msg : String)
deriving Repr, DecidableEq

/-- Lines 109-129 of main.py: `if detection_df is not None and not
detection_df.empty:` compute the area columns, the totals and the energy
estimate; `else:` show the no-detections warning.  `detection_df` is `none`
when the detector failed to produce a table. -/
def render_detection (scale irr eff loss : ℚ) (detection_df : Option (List Detection)) :
    RenderOutput :=
  match detection_df with
  | some df =>
      if df.isEmpty then
        .warning noDetectionsMsg
      else
        let tpx := total_area_px df
        let tm2 := total_area_m2 scale df
        let e := estimate_energy tm2 irr eff loss
        .results tpx tm2 e.1 e.2
  | none => .warning noDetectionsMsg

end SolarApp

namespace SolarApp

/-! ## Claims -/

/-- C1: for all non-negative inputs with `panel_efficiency ∈ (0,1]` and
`system_loss ∈ [0,1)`, `estimate_energy` returns
`daily_kwh = total_area_m2 * irradiance * panel_efficiency * (1 - system_loss)`
and `yearly_kwh = daily_kwh * 365`; in particular on the spec's exact scenario
(100, 5.5, 0.185, 0.10) it returns (91.575, 33424.875). -/
theorem estimate_energy_formula (a irr eff loss : ℚ)
    (_ha : 0 ≤ a) (_hirr : 0 ≤ irr) (_heff1 : 0 < eff) (_heff2 : eff ≤ 1)
    (_hl1 : 0 ≤ loss) (_hl2 : loss < 1) :
    estimate_energy a irr eff loss =
      (a * irr * eff * (1 - loss), a * irr * eff * (1 - loss) * 365) ∧
    estimate_energy 100 (11/2) (37/200) (1/10) = (91575/1000, 33424875/1000) := by
  constructor
  · rfl
  · norm_num [estimate_energy]

/-- Witness for C1: the theorem applied at the spec's exact scenario. -/
theorem estimate_energy_formula_witness :
    estimate_energy 100 (11/2) (37/200) (1/10) = (91575/1000, 33424875/1000) :=
  (estimate_energy_formula 100 (11/2) (37/200) (1/10)
    (by norm_num) (by norm_num) (by norm_num) (by norm_num)
    (by norm_num) (by norm_num)).2

/-- C2: for every latitude and longitude, when the HTTP request returns
status 200 with a well-formed body carrying `E_y = v`, `get_avg_irradiance`
returns `(v / 365, request_url, no error)`. -/
theorem get_avg_irradiance_success (lat lon v : ℚ) :
    get_avg_irradiance lat lon (.response 200 (.ok v)) =
      (some (v / 365), pvgis_url lat lon, none) := by
  rfl

/-- C3: when the network request raises or the body parse raises,
`get_avg_irradiance` does not propagate: it returns the definite 3-tuple
(absent value, request URL, error message describing the failure). -/
theorem get_avg_irradiance_exception (lat lon : ℚ) (msg : String) :
    get_avg_irradiance lat lon (.netError msg) =
      (none, pvgis_url lat lon, some msg) ∧
    get_avg_irradiance lat lon (.response 200 (.error msg)) =
      (none, pvgis_url lat lon, some msg) := by
  exact ⟨rfl, rfl⟩

/-- C4: when the HTTP request completes with a status other than 200,
`get_avg_irradiance` returns an absent value, the request URL, and an error
message naming that status code. -/
theorem get_avg_irradiance_non200 (lat lon : ℚ) (status : Nat)
    (parsed : Except String ℚ) (h : status ≠ 200) :
    get_avg_irradiance lat lon (.response status parsed) =
      (none, pvgis_url lat lon, some ("PVGIS error: status " ++ toString status)) := by
  simp [get_avg_irradiance, h]

/-- Witness for C4: a 404 response. -/
theorem get_avg_irradiance_non200_witness :
    get_avg_irradiance 0 0 (.response 404 (.ok 1)) =
      (none, pvgis_url 0 0, some ("PVGIS error: status " ++ toString 404)) :=
  get_avg_irradiance_non200 0 0 404 (.ok 1) (by decide)

/-- C5: for every detection with `xmin < xmax` and `ymin < ymax` and every
`scale > 0`, the computed `area_px` equals `(xmax − xmin) * (ymax − ymin)`
exactly, and the computed `area_m2` equals `area_px * scale ^ 2`. -/
theorem area_formulas (d : Detection) (scale : ℚ)
    (_hx : d.xmin < d.xmax) (_hy : d.ymin < d.ymax) (_hs : 0 < scale) :
    area_px d = (d.xmax - d.xmin) * (d.ymax - d.ymin) ∧
    area_m2 scale d = area_px d * scale ^ 2 :=
  ⟨rfl, rfl⟩

/-- Witness for C5: a concrete 2×3 box at scale 1/2 has `area_px = 6` and
`area_m2 = 3/2`. -/
theorem area_formulas_witness :
    area_px ⟨"panel", 9/10, 0, 0, 2, 3⟩ = (2 - 0) * (3 - 0) ∧
    area_m2 (1/2) ⟨"panel", 9/10, 0, 0, 2, 3⟩ =
      area_px ⟨"panel", 9/10, 0, 0, 2, 3⟩ * (1/2 : ℚ) ^ 2 :=
  area_formulas ⟨"panel", 9/10, 0, 0, 2, 3⟩ (1/2)
    (by norm_num) (by norm_num) (by norm_num)

/-- C6: for every non-empty detection set, `total_area_px` is the sum of the
per-detection `area_px` values and `total_area_m2` is the sum of the
per-detection `area_m2` values; for an empty set both totals are 0. -/
theorem total_area_sums (scale : ℚ) (df : List Detection) (_h : df ≠ []) :
    total_area_px df = (df.map area_px).sum ∧
    total_area_m2 scale df = (df.map (area_m2 scale)).sum ∧
    total_area_px [] = 0 ∧ total_area_m2 scale [] = 0 :=
  ⟨rfl, rfl, rfl, rfl⟩

/-- Witness for C6: a two-detection set with unit boxes at scale 2 has
`total_area_px = 2` and `total_area_m2 = 8`. -/
theorem total_area_sums_witness :
    total_area_px [⟨"a", 1, 0, 0, 1, 1⟩, ⟨"b", 1, 0, 0, 1, 1⟩] =
      ([⟨"a", 1, 0, 0, 1, 1⟩, ⟨"b", 1, 0, 0, 1, 1⟩].map area_px).sum ∧
    total_area_m2 2 [⟨"a", 1, 0, 0, 1, 1⟩, ⟨"b", 1, 0, 0, 1, 1⟩] =
      ([⟨"a", 1, 0, 0, 1, 1⟩, ⟨"b", 1, 0, 0, 1, 1⟩].map (area_m2 2)).sum ∧
    total_area_px [] = 0 ∧ total_area_m2 2 [] = 0 :=
  total_area_sums 2 [⟨"a", 1, 0, 0, 1, 1⟩, ⟨"b", 1, 0, 0, 1, 1⟩] (by simp)

/-- C7: holding the other three inputs fixed (all inputs non-negative,
`panel_efficiency ∈ (0,1]`, `system_loss ∈ [0,1)`), both outputs of
`estimate_energy` are monotonically non-decreasing in `total_area_m2`,
`irradiance` and `panel_efficiency`, and non-increasing in `system_loss`. -/
theorem estimate_energy_monotone (a irr eff loss : ℚ)
    (ha : 0 ≤ a) (hirr : 0 ≤ irr) (heff0 : 0 < eff) (_heff1 : eff ≤ 1)
    (_hl0 : 0 ≤ loss) (hl1 : loss < 1) :
    (∀ a', a ≤ a' →
      (estimate_energy a irr eff loss).1 ≤ (estimate_energy a' irr eff loss).1 ∧
      (estimate_energy a irr eff loss).2 ≤ (estimate_energy a' irr eff loss).2) ∧
    (∀ irr', irr ≤ irr' →
      (estimate_energy a irr eff loss).1 ≤ (estimate_energy a irr' eff loss).1 ∧
      (estimate_energy a irr eff loss).2 ≤ (estimate_energy a irr' eff loss).2) ∧
    (∀ eff', eff ≤ eff' → eff' ≤ 1 →
      (estimate_energy a irr eff loss).1 ≤ (estimate_energy a irr eff' loss).1 ∧
      (estimate_energy a irr eff loss).2 ≤ (estimate_energy a irr eff' loss).2) ∧
    (∀ loss', loss ≤ loss' → loss' < 1 →
      (estimate_energy a irr eff loss').1 ≤ (estimate_energy a irr eff loss).1 ∧
      (estimate_energy a irr eff loss').2 ≤ (estimate_energy a irr eff loss).2) := by
  have hls : (0:ℚ) ≤ 1 - loss := by linarith
  have heff : (0:ℚ) ≤ eff := le_of_lt heff0
  refine ⟨fun a' haa => ?_, fun irr' hii => ?_, fun eff' hee _ => ?_,
    fun loss' hll _ => ?_⟩ <;>
    simp only [estimate_energy] <;> constructor <;> gcongr <;> linarith

/-- Witness for C7: at (1, 1, 1/2, 1/2), increasing the area to 2 does not
decrease the daily output. -/
theorem estimate_energy_monotone_witness :
    (estimate_energy 1 1 (1/2) (1/2)).1 ≤ (estimate_energy 2 1 (1/2) (1/2)).1 :=
  ((estimate_energy_monotone 1 1 (1/2) (1/2) (by norm_num) (by norm_num)
    (by norm_num) (by norm_num) (by norm_num) (by norm_num)).1 2 (by norm_num)).1

/-- C8: an empty detection table is not treated as an error: the session
shows the no-detections warning message, and the computation on an empty set
yields zero total areas and zero daily/yearly energy. -/
theorem render_detection_empty (scale irr eff loss : ℚ) :
    render_detection scale irr eff loss (some []) = .warning noDetectionsMsg ∧
    total_area_px [] = 0 ∧ total_area_m2 scale [] = 0 ∧
    estimate_energy (total_area_px []) irr eff loss = (0, 0) ∧
    estimate_energy (total_area_m2 scale []) irr eff loss = (0, 0) := by
  refine ⟨rfl, rfl, rfl, ?_, ?_⟩ <;> simp [estimate_energy, total_area_px, total_area_m2]

/-- C9 counterexample: a fetched irradiance of 0 is a present value
(`get_avg_irradiance` returns `some 0` with no error), yet the session still
requests manual input and discards the fetched value — contradicting
"whenever a fetched value is present, the fetched value is used and no
manual input is requested". -/
theorem sidebar_irradiance_zero_counterexample :
    get_avg_irradiance 0 0 (.response 200 (.ok 0)) = (some 0, pvgis_url 0 0, none) ∧
    sidebar_irradiance (some 0) (pvgis_url 0 0) none manual_irradiance_default =
      ⟨manual_irradiance_default, true, some (pvgis_url 0 0, none)⟩ := by
  constructor
  · simp [get_avg_irradiance]
  · simp [sidebar_irradiance, pyTruthy]

/-- C9 amended: the session requests manual irradiance input (default
placeholder 5.5, surfacing the URL and error for diagnosis) exactly when the
fetched value is absent or zero; whenever a nonzero fetched value is present,
the fetched value is used and no manual input is requested. -/
theorem sidebar_irradiance_fallback (fetched : Option ℚ) (url : String)
    (err : Option String) (manual : ℚ) :
    ((sidebar_irradiance fetched url err manual).manualRequested = true ↔
      fetched = none ∨ fetched = some 0) ∧
    (fetched = none ∨ fetched = some 0 →
      sidebar_irradiance fetched url err manual = ⟨manual, true, some (url, err)⟩) ∧
    (∀ v, fetched = some v → v ≠ 0 →
      sidebar_irradiance fetched url err manual = ⟨v, false, none⟩) ∧
    manual_irradiance_default = 11/2 := by
  refine ⟨?_, ?_, ?_, rfl⟩
  · rcases fetched with _ | v
    · simp [sidebar_irradiance, pyTruthy]
    · by_cases hv : v = 0 <;> simp [sidebar_irradiance, pyTruthy, hv]
  · rintro (h | h) <;> subst h <;> simp [sidebar_irradiance, pyTruthy]
  · rintro v rfl hv
    simp [sidebar_irradiance, pyTruthy, hv]

/-- Witness for C9's amended theorem: a fetched value of 3 is used directly
and no manual input is requested. -/
theorem sidebar_irradiance_fallback_witness :
    sidebar_irradiance (some 3) "u" none (11/2) = ⟨3, false, none⟩ :=
  (sidebar_irradiance_fallback (some 3) "u" none (11/2)).2.2.1 3 rfl (by norm_num)

/-- C10 counterexample: at concrete inputs, an absent detection table and an
empty detection table render the very same output — the two outcomes are not
distinguishable for the user, contradicting the claim. -/
theorem render_detection_indistinguishable_counterexample :
    render_detection 1 1 1 0 none = render_detection 1 1 1 0 (some []) :=
  rfl

/-- C10 amended: the caller maps both "ran successfully, found nothing" (an
empty detection table) and "failed to run" (an absent detection table) to the
same no-detections warning; the two outcomes lead to identical, not
distinguishable, results for the user. -/
theorem render_detection_absent_eq_empty (scale irr eff loss : ℚ) :
    render_detection scale irr eff loss none = .warning noDetectionsMsg ∧
    render_detection scale irr eff loss (some []) = .warning noDetectionsMsg :=
  ⟨rfl, rfl⟩

end SolarApp
